import Mathlib

/-!
# Verification of the Respring damped-spring library

A shallow embedding, over the exact reals, of `src/spring.rs` from the
Respring repository.  `f64` values are modelled as `ℝ`; the generic
animatable vector type (the `VectorArithmetic` trait: zero, add, subtract,
`scale_by`, `magnitude_squared`) is modelled as a real inner product space,
where `scaled_by r` is scalar multiplication `r • ·` and
`magnitude_squared` is the inner product of a vector with itself.
`f64::INFINITY`, returned by `settling_duration_with_velocity` when the
decay constant is zero, is modelled by working in `EReal` for that
function's codomain.  `is_nan` / `is_infinite` checks of the source can
never fire over exact reals and are noted in comments where they occur.
-/

noncomputable section

open scoped RealInnerProductSpace

/-- `std::f64::consts::TAU`, the circle constant 2π. -/
def TAU : ℝ := 2 * Real.pi

/-- The canonical spring state, from `struct Spring` in `src/spring.rs`. -/
structure Spring where
  angular_frequency : ℝ
  decay_constant : ℝ
  mass : ℝ

/-- `Spring::new` — direct, unchecked field assignment. -/
def Spring.new (angular_frequency decay_constant mass : ℝ) : Spring :=
  Spring.mk angular_frequency decay_constant mass

/-- The damping ratio computed from the bounce parameter inside
`Spring::with_duration_bounce` (lines 45–57 of `src/spring.rs`), for the
`bounce > -1` case.  The source initialises `damping_ratio` to `1.0`,
overwrites it with `1.0/(bounce+1.0)` for negative bounce, and for positive
bounce sets it to `0.0` and then to `1.0 - bounce` only when `bounce ≤ 1`. -/
def bounceDampingRatio (bounce : ℝ) : ℝ :=
  if bounce < 0 then 1 / (bounce + 1)
  else if bounce = 0 then 1
  else if bounce ≤ 1 then 1 - bounce
  else 0

/-- `Spring::with_duration_bounce`.  For `bounce > -1` this mirrors the
source exactly: the oscillation factor is `TAU` when the damping ratio is
`≤ 1` and `-TAU` otherwise, `angular_frequency = sqrt(|1 - ζ²|)·factor/duration`,
`decay_constant = ζ·TAU/duration`, `mass = 1`.  For `bounce ≤ -1` the source
leaves `damping_ratio = f64::INFINITY` and produces a spring with infinite
`angular_frequency` and `decay_constant`; ±∞ has no counterpart in this
real-number model, so that branch (exercised by no claim below) is left as a
placeholder value. -/
def Spring.with_duration_bounce (duration bounce : ℝ) : Spring :=
  if -1 < bounce then
    let damping_ratio := bounceDampingRatio bounce
    let angular_velocity_factor := if damping_ratio ≤ 1 then TAU else -TAU
    Spring.mk
      (Real.sqrt |1 - damping_ratio * damping_ratio| * angular_velocity_factor / duration)
      (damping_ratio * TAU / duration)
      1
  else
    Spring.mk 0 0 1

/-- `Spring::with_duration` = `with_duration_bounce(duration, 0)`. -/
def Spring.with_duration (duration : ℝ) : Spring :=
  Spring.with_duration_bounce duration 0

/-- `Spring::duration` accessor. -/
def Spring.duration (s : Spring) : ℝ :=
  TAU / Real.sqrt (s.decay_constant * s.decay_constant
    + s.angular_frequency * |s.angular_frequency|)

/-- `Spring::bounce` accessor, branching on the sign of `angular_frequency`. -/
def Spring.bounce (s : Spring) : ℝ :=
  let half_decay := s.decay_constant / 2
  let decay_squared := s.decay_constant * s.decay_constant
  let frequency_squared := s.angular_frequency * s.angular_frequency
  if 0 ≤ s.angular_frequency then
    let oscillation_period := -TAU / Real.sqrt (frequency_squared + decay_squared)
    oscillation_period * half_decay / Real.pi + 1
  else
    let decay_period := TAU / Real.sqrt (decay_squared - frequency_squared)
    1 / (decay_period * half_decay / Real.pi) - 1

/-- `Spring::with_mass_stiffness_damping`. -/
def Spring.with_mass_stiffness_damping (mass stiffness damping : ℝ)
    (allow_over_damping : Bool) : Spring :=
  let natural_frequency := Real.sqrt (stiffness / mass)
  let damping_ratio := damping / (2 * mass)
  if natural_frequency < damping_ratio ∧ allow_over_damping = false then
    Spring.mk 0 natural_frequency mass
  else
    let oscillation := Real.sqrt |stiffness / mass - damping_ratio * damping_ratio|
    let angular_freq := if natural_frequency < damping_ratio then -oscillation else oscillation
    Spring.mk angular_freq damping_ratio mass

/-- `Spring::stiffness` accessor: `mass · (ω² + λ²)`. -/
def Spring.stiffness (s : Spring) : ℝ :=
  s.mass * (s.angular_frequency * s.angular_frequency
    + s.decay_constant * s.decay_constant)

/-- `Spring::damping` accessor: `λ · 2 · mass`. -/
def Spring.damping (s : Spring) : ℝ :=
  s.decay_constant * 2 * s.mass

section VectorModel

variable {V : Type*} [NormedAddCommGroup V] [InnerProductSpace ℝ V]

/-- The `VectorArithmetic::magnitude_squared` operation: the dot product of a
value with itself (for `f64`, the square). -/
def magnitude_squared (x : V) : ℝ := @inner ℝ V _ x x

/-- `Spring::value` — the three-regime closed-form position, branching on the
sign of `angular_frequency`; `scaled_by` is scalar multiplication. -/
def Spring.value (s : Spring) (target initial_velocity : V) (time : ℝ) : V :=
  if 0 < s.angular_frequency then
    let angle := s.angular_frequency * time
    let sin_val := Real.sin angle
    let cos_val := Real.cos angle
    let displacement :=
      (sin_val / s.angular_frequency) • (s.decay_constant • target - initial_velocity)
        + cos_val • target
    target - Real.exp (-s.decay_constant * time) • displacement
  else if s.angular_frequency < 0 then
    let negative_freq_minus_damping := -s.angular_frequency - s.decay_constant
    let exp_term1 := Real.exp (negative_freq_minus_damping * time)
    let exp_term2 := Real.exp ((s.angular_frequency - s.decay_constant) * time)
    let damping_factor := (s.decay_constant - s.angular_frequency) * exp_term1
      + negative_freq_minus_damping * exp_term2
    let scale_factor := damping_factor / (s.angular_frequency * 2) + 1
    let velocity_factor := (exp_term1 - exp_term2) / (s.angular_frequency * 2)
    scale_factor • target - velocity_factor • initial_velocity
  else
    let displacement := target + time • (s.decay_constant • target - initial_velocity)
    let damping_term := Real.exp (-s.decay_constant * time)
    target - damping_term • displacement

/-- `Spring::velocity` — the three-regime closed-form velocity. -/
def Spring.velocity (s : Spring) (target initial_velocity : V) (time : ℝ) : V :=
  if 0 < s.angular_frequency then
    let damping_term := Real.exp (-s.decay_constant * time)
    let angle := s.angular_frequency * time
    let sin_val := Real.sin angle
    let cos_val := Real.cos angle
    let target_term :=
      ((s.angular_frequency * sin_val + s.decay_constant * cos_val) * damping_term) • target
    let displacement_factor :=
      (s.decay_constant * sin_val - s.angular_frequency * cos_val) * damping_term
        / s.angular_frequency
    let velocity_term :=
      displacement_factor • (s.decay_constant • target - initial_velocity)
    velocity_term + target_term
  else if s.angular_frequency < 0 then
    let negative_freq_minus_damping := -s.angular_frequency - s.decay_constant
    let damping_minus_freq := s.angular_frequency - s.decay_constant
    let exp_term1 := Real.exp (negative_freq_minus_damping * time)
    let exp_term2 := Real.exp (damping_minus_freq * time)
    let term1 := negative_freq_minus_damping * exp_term1
    let term2 := damping_minus_freq * exp_term2
    let scale_factor := ((s.decay_constant - s.angular_frequency) * term1
      + negative_freq_minus_damping * term2) / (s.angular_frequency * 2) + 1
    let velocity_factor := (term1 - term2) / (s.angular_frequency * 2)
    scale_factor • target - velocity_factor • initial_velocity
  else
    let damping_term := Real.exp (-s.decay_constant * time)
    let time_factor := (s.decay_constant * time - 1) * damping_term
    let velocity_delta := s.decay_constant • target - initial_velocity
    let damped_target := (s.decay_constant * damping_term) • target
    time_factor • velocity_delta + damped_target

/-- `Spring::update`: the two caller-supplied slots are modelled as the
returned pair `(value, velocity)`. -/
def Spring.update (s : Spring) (value velocity : V) (target : V) (delta_time : ℝ) : V × V :=
  let delta := target - value
  let delta_velocity := s.velocity delta velocity delta_time
  let delta_value := s.value delta velocity delta_time
  (value + delta_value, delta_velocity)

/-- `Spring::force`: spring force plus damping force. -/
def Spring.force (s : Spring) (target position velocity : V) : V :=
  let damping_force := ((-s.decay_constant * 2) * s.mass) • velocity
  let delta := target - position
  let spring_force :=
    ((s.angular_frequency * s.angular_frequency
      + s.decay_constant * s.decay_constant) * s.mass) • delta
  spring_force + damping_force

/-- The bounded numerical search performed by
`Spring::settling_duration_with_velocity` for critically damped and
overdamped springs (lines 406–432 of `src/spring.rs`).  State threaded
through the loop: remaining iterations (fuel, 1024 at the initial call),
current `time`, `best_time`, and `best_distance`; the source initialises
`best_distance` to `f64::INFINITY`, modelled here as `(⊤ : EReal)`.  The
source's NaN/infinity check on `distance` can never fire over exact reals
and is omitted.  Exhausting the budget returns 0. -/
def settlingLoop (s : Spring) (target initial_velocity : V) (epsilon : ℝ) :
    ℕ → ℝ → ℝ → EReal → ℝ
  | 0, _, _, _ => 0
  | fuel + 1, time, best_time, best_distance =>
    let current_value := s.value target initial_velocity time
    let distance := Real.sqrt (magnitude_squared (current_value - target))
    if (epsilon : EReal) ≤ best_distance then
      if (distance : EReal) < best_distance then
        settlingLoop s target initial_velocity epsilon fuel (time + 0.1) time distance
      else
        settlingLoop s target initial_velocity epsilon fuel (time + 0.1) best_time best_distance
    else if epsilon ≤ distance then
      settlingLoop s target initial_velocity epsilon fuel (time + 0.1) best_time ⊤
    else if 1 < time - best_time then
      best_time
    else
      settlingLoop s target initial_velocity epsilon fuel (time + 0.1) best_time best_distance

/-- `Spring::settling_duration_with_velocity`.  The `f64` return value can be
`f64::INFINITY` (when `decay_constant == 0`), so the codomain is modelled as
`EReal`, with the finite branches coerced from `ℝ`. -/
def Spring.settling_duration_with_velocity (s : Spring) (target initial_velocity : V)
    (epsilon : ℝ) : EReal :=
  if s.decay_constant = 0 then ⊤
  else if s.angular_frequency ≤ 0 then
    ((settlingLoop s target initial_velocity epsilon 1024 0 (-1) ⊤ : ℝ) : EReal)
  else
    let magnitude :=
      Real.sqrt (magnitude_squared (s.decay_constant • target - initial_velocity))
        + Real.sqrt (magnitude_squared target)
    ((max (-Real.log (epsilon / magnitude) / s.decay_constant) 0 : ℝ) : EReal)

/-- `Spring::settling_duration` = `settling_duration_with_velocity(1.0, 0.0, 0.001)`. -/
def Spring.settling_duration (s : Spring) : EReal :=
  s.settling_duration_with_velocity (1 : ℝ) (0 : ℝ) 0.001

end VectorModel

/-- One Newton iteration `x − f(x)/f'(x)`, as performed by the `find_root`
closure in `Spring::with_settling_duration_damping_ratio`. -/
def newtonStep (response derivative : ℝ → ℝ) (x : ℝ) : ℝ :=
  x - response x / derivative x

/-- The main iteration loop of the `find_root` closure (lines 289–308 of
`src/spring.rs`).  State: remaining iterations (the source's
`remaining_iterations`, which the loop decrements after the early-exit check
and breaks on when it reaches 0 — entering with 0 or 1 remaining runs the
body exactly once), the previous iterate (`scaled_value`) and the previous
signed iterate delta (`difference`).  The source's infinite/NaN check on the
new iterate, which returns `false`, can never fire over exact reals and is
omitted.  On early exit (new absolute delta ≤ `epsilon`) the returned flag
tests the PREVIOUS signed delta against `epsilon·1e5`; on budget exhaustion
the flag is `true` unconditionally. -/
def findRootLoop (response derivative : ℝ → ℝ) (epsilon : ℝ) :
    ℕ → ℝ → ℝ → Bool × ℝ
  | 0, scaled_value, difference =>
    let current_value := newtonStep response derivative scaled_value
    if |current_value - scaled_value| ≤ epsilon then
      (decide (difference ≤ epsilon * 1e5), current_value)
    else (true, current_value)
  | 1, scaled_value, difference =>
    let current_value := newtonStep response derivative scaled_value
    if |current_value - scaled_value| ≤ epsilon then
      (decide (difference ≤ epsilon * 1e5), current_value)
    else (true, current_value)
  | fuel + 2, scaled_value, difference =>
    let current_value := newtonStep response derivative scaled_value
    if |current_value - scaled_value| ≤ epsilon then
      (decide (difference ≤ epsilon * 1e5), current_value)
    else
      findRootLoop response derivative epsilon (fuel + 1) current_value
        (scaled_value - current_value)

/-- The `find_root` closure of `Spring::with_settling_duration_damping_ratio`
(lines 251–311 of `src/spring.rs`), returning the `bool` flag together with
the value written through the `result` out-parameter (every return path of
the source writes `result` first).  The initial guess is re-scaled by
`1/duration` before the first Newton step; after two explicit steps (with
early `true` returns when the budget `max_iterations` is 1 or 2, and `false`
returns on non-finite iterates, which cannot fire over exact reals) the
remaining `max_iterations - 2` budget is handed to `findRootLoop`.  A
negative remaining budget behaves like 0 (the loop body runs once and
breaks), matching `Int.toNat`. -/
def find_root (duration epsilon : ℝ) (response derivative : ℝ → ℝ)
    (initial_guess : ℝ) (max_iterations : ℤ) : Bool × ℝ :=
  let time_scale := 1 / duration
  let approximation := time_scale * initial_guess
  let next_value := newtonStep response derivative approximation
  if max_iterations = 1 then (true, next_value)
  else
    let scaled_value := newtonStep response derivative next_value
    if max_iterations - 2 = 0 then (true, scaled_value)
    else
      findRootLoop response derivative epsilon (max_iterations - 2).toNat
        scaled_value (next_value - scaled_value)

/-- The underdamped response function (`damped_oscillation` closure). -/
def damped_oscillation (epsilon damping_frequency_ratio damped_time x : ℝ) : ℝ :=
  epsilon - |damping_frequency_ratio * Real.exp (-damped_time * x)|

/-- The underdamped derivative function (`damped_response` closure). -/
def damped_response (damping_squared_duration natural_frequency damped_time x : ℝ) : ℝ :=
  let squared_x := x * x
  let damping_term := squared_x * damping_squared_duration
  damping_term / (Real.exp (damped_time * x) * squared_x * natural_frequency)

/-- The critically-damped response function (`critical_response` closure). -/
def critical_response (duration epsilon x : ℝ) : ℝ :=
  let threshold := if x < 0 then -epsilon else epsilon
  let response := duration * x
  Real.exp (-response) * (response + 1) - threshold

/-- The critically-damped derivative function (`critical_derivative` closure). -/
def critical_derivative (duration x : ℝ) : ℝ :=
  -duration * duration * x / Real.exp (duration * x)

/-- `f64::EPSILON` = 2⁻⁵². -/
def f64Epsilon : ℝ := 1 / 2 ^ (52 : ℕ)

/-- `Spring::with_settling_duration_damping_ratio`: clamp the inputs, pick the
response-function family by regime, run the two root-finding passes (the
second only when the first reports convergence), and post-process the root. -/
def Spring.with_settling_duration_damping_ratio
    (settling_duration damping_ratio epsilon : ℝ) : Spring :=
  let dr := min (max damping_ratio f64Epsilon) 1
  let duration := min (max settling_duration 0.01) 10
  let damping_squared_duration := dr * dr * duration
  let natural_frequency := Real.sqrt (1 - dr * dr)
  let damping_frequency_ratio := dr / natural_frequency
  let damped_time := duration * dr
  let response_function : ℝ → ℝ :=
    if 1 ≤ dr then critical_response duration epsilon
    else damped_oscillation epsilon damping_frequency_ratio damped_time
  let derivative_function : ℝ → ℝ :=
    if 1 ≤ dr then critical_derivative duration
    else damped_response damping_squared_duration natural_frequency damped_time
  let first := find_root duration epsilon response_function derivative_function 5 12
  let root_value :=
    if first.1 = true then
      (find_root duration epsilon response_function derivative_function 1 20).2
    else first.2
  let omega_squared := root_value * root_value
  let omega₁ := root_value * 2 * dr
  let half_omega := omega₁ / 2
  let omega₂ := Real.sqrt |omega_squared - half_omega * half_omega|
  let decay := if half_omega ≤ root_value then half_omega else root_value
  let omega := if root_value < half_omega then 0 else omega₂
  Spring.mk omega decay 1

section EasyClaims

variable {V : Type*} [NormedAddCommGroup V] [InnerProductSpace ℝ V]

/-- Claim C7: `update(value, velocity, target, delta_time)` sets the velocity
slot to `velocity(target − value, velocity, delta_time)` and the value slot to
`value + value(target − value, velocity, delta_time)`, where the remaining
displacement `target − value` is computed before either evaluation; nothing
else is produced. -/
theorem C7_update_decomposition (s : Spring) (value velocity target : V)
    (delta_time : ℝ) :
    s.update value velocity target delta_time =
      (value + s.value (target - value) velocity delta_time,
        s.velocity (target - value) velocity delta_time) := rfl

/-- Claim C8: for every spring and every target, `force(target, target, 0)`
is the zero vector: no displacement and no velocity means no net force. -/
theorem C8_force_at_rest_zero (s : Spring) (target : V) :
    s.force target target 0 = 0 := by
  simp [Spring.force]

/-- Claim C9: two springs agreeing on `angular_frequency` and
`decay_constant` (their `mass` fields unconstrained, in particular different)
produce identical `value` and `velocity` results on all inputs — mass does
not appear in the motion equations. -/
theorem C9_mass_noninterference (s₁ s₂ : Spring)
    (hfreq : s₁.angular_frequency = s₂.angular_frequency)
    (hdecay : s₁.decay_constant = s₂.decay_constant)
    (target initial_velocity : V) (time : ℝ) :
    s₁.value target initial_velocity time = s₂.value target initial_velocity time ∧
      s₁.velocity target initial_velocity time = s₂.velocity target initial_velocity time := by
  obtain ⟨a₁, d₁, m₁⟩ := s₁
  obtain ⟨a₂, d₂, m₂⟩ := s₂
  dsimp only at hfreq hdecay
  subst hfreq
  subst hdecay
  exact ⟨rfl, rfl⟩

/-- Witness for C9: the springs `⟨1, 1, 2⟩` and `⟨1, 1, 3⟩` differ in mass
but agree in motion at a concrete input. -/
theorem C9_mass_noninterference_witness :
    Spring.value (Spring.mk 1 1 2) (1 : ℝ) 0 0 = Spring.value (Spring.mk 1 1 3) (1 : ℝ) 0 0 ∧
      Spring.velocity (Spring.mk 1 1 2) (1 : ℝ) 0 0 =
        Spring.velocity (Spring.mk 1 1 3) (1 : ℝ) 0 0 :=
  C9_mass_noninterference (Spring.mk 1 1 2) (Spring.mk 1 1 3) rfl rfl 1 0 0

/-- Claim C10: for every spring and all target and initial-velocity vectors,
`value(target, initial_velocity, 0) = 0` in all three regime branches (over
the exact reals, where every parameter is finite). -/
theorem C10_value_at_time_zero (s : Spring) (target initial_velocity : V) :
    s.value target initial_velocity 0 = 0 := by
  unfold Spring.value
  rcases lt_trichotomy s.angular_frequency 0 with h | h | h
  · rw [if_neg (by linarith), if_pos h]
    have hne : s.angular_frequency * 2 ≠ 0 := mul_ne_zero (ne_of_lt h) two_ne_zero
    have e1 : ((s.decay_constant - s.angular_frequency) *
          Real.exp ((-s.angular_frequency - s.decay_constant) * 0)
        + (-s.angular_frequency - s.decay_constant) *
          Real.exp ((s.angular_frequency - s.decay_constant) * 0))
        / (s.angular_frequency * 2) + 1 = 0 := by
      simp only [mul_zero, Real.exp_zero, mul_one]
      field_simp
      ring
    have e2 : (Real.exp ((-s.angular_frequency - s.decay_constant) * 0)
        - Real.exp ((s.angular_frequency - s.decay_constant) * 0))
        / (s.angular_frequency * 2) = 0 := by
      simp
    dsimp only
    rw [e1, e2, zero_smul, zero_smul, sub_zero]
  · rw [if_neg (by simp [h]), if_neg (by simp [h])]
    simp
  · rw [if_pos h]
    simp

end EasyClaims

/-- For the concrete overdamped spring `⟨-1, 2, 1⟩`, the scalar position
`value(1, 0, ·)` equals a closed combination of two real exponentials. -/
theorem overdamped_value_closed_form (t : ℝ) :
    Spring.value (Spring.mk (-1) 2 1) (1 : ℝ) 0 t
      = (3 * Real.exp ((-1) * t) - Real.exp ((-3) * t)) / (-2) + 1 := by
  unfold Spring.value
  norm_num
  ring_nf

/-- Claim C1 (failing input): for the overdamped spring `⟨-1, 2, 1⟩` with
`target = 1`, `initial_velocity = 0`, at `time = 0`, the analytic
time-derivative of `value` is `0` (the motion starts with the given initial
velocity), yet `velocity` returns `1` — the overdamped branch of `velocity`
is NOT the time-derivative of the overdamped branch of `value`: its
target coefficient carries a stray `+ 1`, so it exceeds the derivative by
exactly `target`. -/
theorem C1_overdamped_velocity_not_derivative :
    HasDerivAt (fun t => Spring.value (Spring.mk (-1) 2 1) (1 : ℝ) 0 t) 0 0 ∧
      Spring.velocity (Spring.mk (-1) 2 1) (1 : ℝ) 0 0 = 1 ∧ (1 : ℝ) ≠ 0 := by
  refine ⟨?_, ?_, one_ne_zero⟩
  · have h1 : HasDerivAt (fun t : ℝ => (-1) * t) (-1) 0 := by
      simpa using (hasDerivAt_id (0 : ℝ)).const_mul (-1 : ℝ)
    have h3 : HasDerivAt (fun t : ℝ => (-3) * t) (-3) 0 := by
      simpa using (hasDerivAt_id (0 : ℝ)).const_mul (-3 : ℝ)
    have hd := (((h1.exp.const_mul 3).sub h3.exp).div_const (-2)).add_const 1
    have heq : (fun t => Spring.value (Spring.mk (-1) 2 1) (1 : ℝ) 0 t)
        = fun t => (3 * Real.exp ((-1) * t) - Real.exp ((-3) * t)) / (-2) + 1 :=
      funext overdamped_value_closed_form
    rw [heq]
    convert hd using 1
    norm_num
  · unfold Spring.velocity
    norm_num

/-- Claim C2 (counterexample): for `m = 1`, `k = 1`, `c = 4` (overdamped:
`c/(2m) = 2 > 1 = sqrt(k/m)`), the spring built by
`with_mass_stiffness_damping(1, 1, 4, true)` reports `stiffness() = 7`,
not `k = 1` — far outside any reasonable tolerance. -/
theorem C2_counterexample_overdamped_stiffness :
    (Spring.with_mass_stiffness_damping 1 1 4 true).stiffness = 7 ∧
      ¬ |(7 : ℝ) - 1| ≤ 1e-9 * 1 := by
  constructor
  · unfold Spring.with_mass_stiffness_damping Spring.stiffness
    norm_num
  · norm_num

/-- Claim C2 (amended): for all `m, k, c > 0`, the spring built by
`with_mass_stiffness_damping(m, k, c, true)` always satisfies
`damping() = c`; it satisfies `stiffness() = k` whenever the spring is not
overdamped, i.e. when `c/(2m) ≤ sqrt(k/m)`.  (In the overdamped case
`stiffness()` returns `c²/(2m) − k` instead.) -/
theorem C2_mass_stiffness_damping_round_trip_amended (m k c : ℝ)
    (hm : 0 < m) (hk : 0 < k) (hc : 0 < c) :
    (Spring.with_mass_stiffness_damping m k c true).damping = c ∧
      (c / (2 * m) ≤ Real.sqrt (k / m) →
        (Spring.with_mass_stiffness_damping m k c true).stiffness = k) := by
  have hm' : m ≠ 0 := ne_of_gt hm
  unfold Spring.with_mass_stiffness_damping Spring.damping Spring.stiffness
  have hcond : ¬ (Real.sqrt (k / m) < c / (2 * m) ∧ true = false) := by simp
  rw [if_neg hcond]
  dsimp only
  constructor
  · field_simp
    ring
  · intro h
    have hdr : 0 ≤ c / (2 * m) := by positivity
    have h2 : c / (2 * m) * (c / (2 * m)) ≤ k / m := by
      calc c / (2 * m) * (c / (2 * m))
          ≤ Real.sqrt (k / m) * Real.sqrt (k / m) := mul_self_le_mul_self hdr h
        _ = k / m := Real.mul_self_sqrt (by positivity)
    have habs : |k / m - c / (2 * m) * (c / (2 * m))|
        = k / m - c / (2 * m) * (c / (2 * m)) := abs_of_nonneg (by linarith)
    rw [habs]
    by_cases hb : Real.sqrt (k / m) < c / (2 * m)
    · rw [if_pos hb, neg_mul_neg, Real.mul_self_sqrt (by linarith)]
      field_simp
      ring
    · rw [if_neg hb, Real.mul_self_sqrt (by linarith)]
      field_simp
      ring

/-- Witness for the amended C2 at `m = k = c = 1`. -/
theorem C2_round_trip_witness :
    (Spring.with_mass_stiffness_damping 1 1 1 true).damping = 1 ∧
      (1 / (2 * 1) ≤ Real.sqrt (1 / 1) →
        (Spring.with_mass_stiffness_damping 1 1 1 true).stiffness = 1) :=
  C2_mass_stiffness_damping_round_trip_amended 1 1 1 one_pos one_pos one_pos

/-- Claim C3: for every `duration > 0` and every bounce `b` with
`-1 < b ≤ 1`, the round trip through `with_duration_bounce` is EXACT over
the reals: `duration() = d` and `bounce() = b` (in particular within the
claimed `1e-9` relative tolerance); the `b = -1` boundary (infinite damping
ratio) is excluded. -/
theorem C3_duration_bounce_round_trip (d b : ℝ) (hd : 0 < d)
    (hb₁ : -1 < b) (hb₂ : b ≤ 1) :
    (Spring.with_duration_bounce d b).duration = d ∧
      (Spring.with_duration_bounce d b).bounce = b := by
  have hπ : (0 : ℝ) < Real.pi := Real.pi_pos
  have hτ : 0 < TAU := by unfold TAU; positivity
  have hτ' : TAU ≠ 0 := ne_of_gt hτ
  have hd' : d ≠ 0 := ne_of_gt hd
  unfold Spring.with_duration_bounce
  rw [if_pos hb₁]
  dsimp only
  rcases lt_or_le b 0 with hneg | hpos
  · -- overdamped: ζ = 1/(b+1) > 1
    have hb1 : 0 < b + 1 := by linarith
    have hζval : bounceDampingRatio b = 1 / (b + 1) := by
      unfold bounceDampingRatio; rw [if_pos hneg]
    have hζ1 : 1 < bounceDampingRatio b := by
      rw [hζval, lt_div_iff₀ hb1]; linarith
    rw [if_neg (not_le.mpr hζ1)]
    set ζ := bounceDampingRatio b with hζdef
    have habs : |1 - ζ * ζ| = ζ * ζ - 1 := by
      rw [abs_of_nonpos (by nlinarith)]; ring
    have hsqnn : (0 : ℝ) ≤ ζ * ζ - 1 := by nlinarith
    have hsq : Real.sqrt (ζ * ζ - 1) * Real.sqrt (ζ * ζ - 1) = ζ * ζ - 1 :=
      Real.mul_self_sqrt hsqnn
    have hωneg : Real.sqrt |1 - ζ * ζ| * -TAU / d < 0 := by
      rw [habs]
      have hsp : 0 < Real.sqrt (ζ * ζ - 1) := Real.sqrt_pos.mpr (by nlinarith)
      exact div_neg_of_neg_of_pos (mul_neg_of_pos_of_neg hsp (by linarith)) hd
    constructor
    · unfold Spring.duration
      dsimp only
      rw [abs_of_neg hωneg, habs]
      have key : ζ * TAU / d * (ζ * TAU / d)
          + Real.sqrt (ζ * ζ - 1) * -TAU / d * -(Real.sqrt (ζ * ζ - 1) * -TAU / d)
          = (TAU / d) ^ 2 := by
        field_simp
        linear_combination (-(TAU ^ 2 * d ^ 2)) * hsq
      rw [key, Real.sqrt_sq (by positivity)]
      field_simp
    · unfold Spring.bounce
      dsimp only
      rw [if_neg (not_le.mpr hωneg), habs]
      have key : ζ * TAU / d * (ζ * TAU / d)
          - Real.sqrt (ζ * ζ - 1) * -TAU / d * (Real.sqrt (ζ * ζ - 1) * -TAU / d)
          = (TAU / d) ^ 2 := by
        field_simp
        linear_combination (-(TAU ^ 2 * d ^ 2)) * hsq
      rw [key, Real.sqrt_sq (by positivity)]
      have hζ0 : ζ ≠ 0 := by positivity
      rw [hζval]
      unfold TAU
      field_simp
      ring
  · -- critical / underdamped: ζ = 1 - b ∈ [0, 1]
    have hζval : bounceDampingRatio b = 1 - b := by
      unfold bounceDampingRatio
      rw [if_neg (not_lt.mpr hpos)]
      by_cases h0 : b = 0
      · rw [if_pos h0, h0]; norm_num
      · rw [if_neg h0, if_pos hb₂]
    have hζ0 : 0 ≤ bounceDampingRatio b := by rw [hζval]; linarith
    have hζ1 : bounceDampingRatio b ≤ 1 := by rw [hζval]; linarith
    rw [if_pos hζ1]
    set ζ := bounceDampingRatio b with hζdef
    have habs : |1 - ζ * ζ| = 1 - ζ * ζ := abs_of_nonneg (by nlinarith)
    have hsq : Real.sqrt (1 - ζ * ζ) * Real.sqrt (1 - ζ * ζ) = 1 - ζ * ζ :=
      Real.mul_self_sqrt (by nlinarith)
    have hωnn : 0 ≤ Real.sqrt |1 - ζ * ζ| * TAU / d := by
      rw [habs]; positivity
    constructor
    · unfold Spring.duration
      dsimp only
      rw [abs_of_nonneg hωnn, habs]
      have key : ζ * TAU / d * (ζ * TAU / d)
          + Real.sqrt (1 - ζ * ζ) * TAU / d * (Real.sqrt (1 - ζ * ζ) * TAU / d)
          = (TAU / d) ^ 2 := by
        field_simp
        linear_combination (TAU ^ 2 * d ^ 2) * hsq
      rw [key, Real.sqrt_sq (by positivity)]
      field_simp
    · unfold Spring.bounce
      dsimp only
      rw [if_pos hωnn, habs]
      have key : Real.sqrt (1 - ζ * ζ) * TAU / d * (Real.sqrt (1 - ζ * ζ) * TAU / d)
          + ζ * TAU / d * (ζ * TAU / d)
          = (TAU / d) ^ 2 := by
        field_simp
        linear_combination (TAU ^ 2 * d ^ 2) * hsq
      rw [key, Real.sqrt_sq (by positivity)]
      rw [hζval]
      unfold TAU
      field_simp
      ring

/-- Witness for C3 at `duration = 1`, `bounce = 1`. -/
theorem C3_duration_bounce_round_trip_witness :
    (Spring.with_duration_bounce 1 1).duration = 1 ∧
      (Spring.with_duration_bounce 1 1).bounce = 1 :=
  C3_duration_bounce_round_trip 1 1 one_pos (neg_lt_self one_pos) (le_refl 1)

/-- Evaluation of `with_duration_bounce` for `bounce > 1`: the source's
damping ratio stays at the `0.0` it was reset to (the `1.0 - bounce`
assignment is guarded by `bounce ≤ 1`), so the result is the undamped spring
`⟨TAU/duration, 0, 1⟩` — the same output as `bounce = 1`. -/
theorem with_duration_bounce_gt_one (d b : ℝ) (hb : 1 < b) :
    Spring.with_duration_bounce d b = Spring.mk (TAU / d) 0 1 := by
  have hζ : bounceDampingRatio b = 0 := by
    unfold bounceDampingRatio
    rw [if_neg (by linarith), if_neg (by linarith), if_neg (not_le.mpr hb)]
  unfold Spring.with_duration_bounce
  rw [if_pos (by linarith : (-1 : ℝ) < b)]
  dsimp only
  rw [hζ]
  norm_num

/-- Claim C5 (counterexample): at `duration = 1`, `bounce = 2`, the spring
produced has `decay_constant = 0`, whereas the claimed formula
`ζ = 1 - bounce` would give `decay_constant = (1 - 2)·TAU/1 = -TAU ≠ 0`. -/
theorem C5_counterexample_bounce_above_one :
    (Spring.with_duration_bounce 1 2).decay_constant = 0 ∧
      (1 - 2) * TAU / 1 ≠ 0 := by
  constructor
  · rw [with_duration_bounce_gt_one 1 2 one_lt_two]
  · norm_num [TAU, Real.pi_ne_zero]

/-- Claim C5 (amended): `with_duration_bounce` does not extrapolate via
`ζ = 1 - bounce` for `bounce > 1`; instead the damping ratio is pinned to
`0`, producing the undamped spring `angular_frequency = TAU/duration`,
`decay_constant = 0`, `mass = 1` (i.e. bounce is effectively clamped to 1
from above). -/
theorem C5_bounce_above_one_amended (d b : ℝ) (hb : 1 < b) :
    Spring.with_duration_bounce d b = Spring.mk (TAU / d) 0 1 :=
  with_duration_bounce_gt_one d b hb

/-- Witness for the amended C5 at `duration = 1`, `bounce = 2`. -/
theorem C5_bounce_above_one_witness :
    Spring.with_duration_bounce 1 2 = Spring.mk (TAU / 1) 0 1 :=
  C5_bounce_above_one_amended 1 2 one_lt_two

section SettlingClaims

variable {V : Type*} [NormedAddCommGroup V] [InnerProductSpace ℝ V]

/-- `sqrt` of the self-inner-product is the Euclidean norm. -/
theorem sqrt_magnitude_squared (x : V) : Real.sqrt (magnitude_squared x) = ‖x‖ := by
  unfold magnitude_squared
  rw [real_inner_self_eq_norm_sq]
  exact Real.sqrt_sq (norm_nonneg x)

/-- Claim C6: `settling_duration_with_velocity` returns `+∞` whenever
`decay_constant = 0`, and for `decay_constant ≠ 0` with
`angular_frequency > 0` (underdamped) it returns the closed form
`max(0, −ln(epsilon/magnitude)/decay_constant)` with
`magnitude = ‖decay_constant • target − initial_velocity‖ + ‖target‖`
(Euclidean norms). -/
theorem C6_settling_duration_closed_form (s : Spring) (target initial_velocity : V)
    (epsilon : ℝ) :
    (s.decay_constant = 0 →
      s.settling_duration_with_velocity target initial_velocity epsilon = ⊤) ∧
      (s.decay_constant ≠ 0 → 0 < s.angular_frequency →
        s.settling_duration_with_velocity target initial_velocity epsilon =
          ((max 0 (-Real.log
              (epsilon / (‖s.decay_constant • target - initial_velocity‖ + ‖target‖))
            / s.decay_constant) : ℝ) : EReal)) := by
  constructor
  · intro h
    unfold Spring.settling_duration_with_velocity
    rw [if_pos h]
  · intro h hfreq
    unfold Spring.settling_duration_with_velocity
    rw [if_neg h, if_neg (not_le.mpr hfreq)]
    dsimp only
    rw [sqrt_magnitude_squared, sqrt_magnitude_squared, max_comm]

/-- Witness for C6: the zero-decay spring `⟨1, 0, 1⟩` never settles, and the
underdamped spring `⟨1, 1, 1⟩` follows the closed form, both at
`target = 1`, `initial_velocity = 0`, `epsilon = 1`. -/
theorem C6_settling_duration_witness :
    Spring.settling_duration_with_velocity (Spring.mk 1 0 1) (1 : ℝ) 0 1 = ⊤ ∧
      Spring.settling_duration_with_velocity (Spring.mk 1 1 1) (1 : ℝ) 0 1 =
        ((max 0 (-Real.log (1 / (‖(1 : ℝ) • (1 : ℝ) - 0‖ + ‖(1 : ℝ)‖)) / 1) : ℝ) : EReal) :=
  ⟨(C6_settling_duration_closed_form (Spring.mk 1 0 1) (1 : ℝ) 0 1).1 rfl,
    (C6_settling_duration_closed_form (Spring.mk 1 1 1) (1 : ℝ) 0 1).2 one_ne_zero one_pos⟩

end SettlingClaims

/-- Newton's step for `f(x) = x²`: `x − x²/(2x) = x/2`. -/
theorem sq_newton_step (s : ℝ) (hs : s ≠ 0) :
    newtonStep (fun x => x ^ 2) (fun x => 2 * x) s = s / 2 := by
  unfold newtonStep
  field_simp
  ring

/-- One unfolding of the `find_root` loop on `f(x) = x²` when the iterate
delta stays above `epsilon`. -/
theorem sq_loop_step (ε d s : ℝ) (fuel n : ℕ) (hf : fuel = n + 2)
    (hs : 0 < s) (h : ε < s / 2) :
    findRootLoop (fun x => x ^ 2) (fun x => 2 * x) ε fuel s d =
      findRootLoop (fun x => x ^ 2) (fun x => 2 * x) ε (n + 1) (s / 2) (s - s / 2) := by
  subst hf
  have hstep := sq_newton_step s (ne_of_gt hs)
  have habs : ¬ |s / 2 - s| ≤ ε := by
    rw [show s / 2 - s = -(s / 2) by ring, abs_neg, abs_of_pos (by linarith)]
    linarith
  simp only [findRootLoop]
  rw [hstep, if_neg habs]

/-- Final unfolding of the `find_root` loop on `f(x) = x²`: with one
remaining iteration and a delta above `epsilon` the pass reports `true`. -/
theorem sq_loop_last (ε d s : ℝ) (fuel : ℕ) (hf : fuel = 1)
    (hs : 0 < s) (h : ε < s / 2) :
    findRootLoop (fun x => x ^ 2) (fun x => 2 * x) ε fuel s d = (true, s / 2) := by
  subst hf
  have hstep := sq_newton_step s (ne_of_gt hs)
  have habs : ¬ |s / 2 - s| ≤ ε := by
    rw [show s / 2 - s = -(s / 2) by ring, abs_neg, abs_of_pos (by linarith)]
    linarith
  simp only [findRootLoop]
  rw [hstep, if_neg habs]

/-- Claim C4 (counterexample): a full pass of `find_root` (initial guess 5,
budget 12, `duration = 1`, `epsilon = 1e-12`) on the response `x ↦ x²` with
derivative `x ↦ 2x` runs out of its iteration budget and reports
convergence (`true`) even though the last delta in iterate value,
`5/2048 − 5/4096 = 5/4096 ≈ 1.2e-3`, far exceeds `epsilon·1e5 = 1e-7`. -/
theorem C4_counterexample_budget_exhaustion_true :
    find_root 1 1e-12 (fun x => x ^ 2) (fun x => 2 * x) 5 12 = (true, 5 / 4096) ∧
      ¬ ((5 : ℝ) / 2048 - 5 / 4096 ≤ 1e-12 * 1e5) := by
  constructor
  · unfold find_root
    dsimp only
    rw [show (1 : ℝ) / 1 * 5 = 5 by norm_num]
    rw [sq_newton_step 5 (by norm_num)]
    rw [show (5 : ℝ) / 2 = 5 / 2 from rfl, sq_newton_step (5 / 2) (by norm_num)]
    rw [if_neg (by decide : ¬ (12 : ℤ) = 1), if_neg (by decide : ¬ (12 : ℤ) - 2 = 0)]
    rw [show ((12 : ℤ) - 2).toNat = 10 by decide]
    rw [show (5 : ℝ) / 2 - 5 / 2 / 2 = 5 / 4 by norm_num]
    rw [show (5 : ℝ) / 2 / 2 = 5 / 4 by norm_num]
    rw [sq_loop_step 1e-12 _ _ _ 8 (by norm_num) (by norm_num) (by norm_num)]
    rw [sq_loop_step 1e-12 _ _ _ 7 (by norm_num) (by norm_num) (by norm_num)]
    rw [sq_loop_step 1e-12 _ _ _ 6 (by norm_num) (by norm_num) (by norm_num)]
    rw [sq_loop_step 1e-12 _ _ _ 5 (by norm_num) (by norm_num) (by norm_num)]
    rw [sq_loop_step 1e-12 _ _ _ 4 (by norm_num) (by norm_num) (by norm_num)]
    rw [sq_loop_step 1e-12 _ _ _ 3 (by norm_num) (by norm_num) (by norm_num)]
    rw [sq_loop_step 1e-12 _ _ _ 2 (by norm_num) (by norm_num) (by norm_num)]
    rw [sq_loop_step 1e-12 _ _ _ 1 (by norm_num) (by norm_num) (by norm_num)]
    rw [sq_loop_step 1e-12 _ _ _ 0 (by norm_num) (by norm_num) (by norm_num)]
    rw [sq_loop_last 1e-12 _ _ _ (by norm_num) (by norm_num) (by norm_num)]
    norm_num
  · norm_num

/-- Claim C4 (amended): the `find_root` loop applies its
`difference ≤ epsilon·1e5` acceptance test ONLY on the early-exit path
(when a successive iterate delta falls at or below `epsilon`, and there it
tests the previous signed delta); whenever that early exit never fires —
in particular whenever the pass ends because its iteration budget is
exhausted — the pass reports convergence (`true`) unconditionally,
regardless of the deltas.  (Failure on infinite/NaN iterates has no
counterpart over the exact reals.) -/
theorem C4_find_root_convergence_amended (response derivative : ℝ → ℝ) (ε : ℝ)
    (hnever : ∀ x, ¬ |newtonStep response derivative x - x| ≤ ε) :
    ∀ (fuel : ℕ) (s d : ℝ), (findRootLoop response derivative ε fuel s d).1 = true := by
  intro fuel
  induction fuel using Nat.strong_induction_on with
  | _ fuel ih =>
    match fuel with
    | 0 =>
      intro s d
      simp only [findRootLoop]
      rw [if_neg (hnever s)]
    | 1 =>
      intro s d
      simp only [findRootLoop]
      rw [if_neg (hnever s)]
    | n + 2 =>
      intro s d
      simp only [findRootLoop]
      rw [if_neg (hnever s)]
      exact ih (n + 1) (by omega) _ _

/-- Witness for the amended C4: the response `x ↦ 1` with derivative
`x ↦ 1` moves every iterate by exactly 1, so with `epsilon = 0` the early
exit never fires and the pass reports `true`. -/
theorem C4_find_root_convergence_witness :
    (findRootLoop (fun _ => 1) (fun _ => 1) 0 3 7 9).1 = true :=
  C4_find_root_convergence_amended (fun _ => 1) (fun _ => 1) 0
    (fun x => by simp [newtonStep]) 3 7 9
